import Mathlib

/-!
Shallow embedding of the core of the Ithil liquidation bot
(src/liquidation_bot/transaction_manager.py and src/liquidation_bot/main.py).

Python lists of position ids are modelled as `List Nat`. `list.remove` and
list indexing are modelled with explicit `Option`/`Except` results, since both
can raise (`ValueError` and `IndexError`). A raised Python exception is
modelled by the `Except.error` constructor carrying the mutated state at the
raise point, because the caller observes that state through `self`.
-/

namespace LiquidationBot

/-- Python `l.remove(x)`: removes the first occurrence of `x`;
returns `none` when `x` is absent, which in Python raises `ValueError`. -/
def pyRemove : List Nat → Nat → Option (List Nat)
  | [], _ => none
  | a :: as, x => if a = x then some as else (pyRemove as x).map (fun l => a :: l)

/-- Python `l[i]`: returns `Except.error ()` when out of range (`IndexError`). -/
def listIndex (l : List Nat) (i : Nat) : Except Unit Nat :=
  match l.get? i with
  | none => Except.error ()
  | some x => Except.ok x

/-- The loop `for e in events: l.remove(e["args"]["id"])` from
`TransactionManager.update_positions`: removals happen one at a time, and a
`ValueError` aborts the loop with the partially mutated list. -/
def removeAll : List Nat → List Nat → Except (List Nat) (List Nat)
  | l, [] => Except.ok l
  | l, e :: rest =>
    match pyRemove l e with
    | none => Except.error l
    | some l2 => removeAll l2 rest

/-- Result of a `filter.get_new_entries()` call: either a list of event ids or
a raised exception (e.g. the remote node invalidated the filter cursor). -/
inductive FetchResult where
  | ok (events : List Nat)
  | err
  deriving DecidableEq

/-- The event data visible to `update_positions` for one strategy: the three
`get_new_entries` results and the three `get_all_entries` histories
(opened, closed, liquidated), each event reduced to its position id. -/
structure FilterData where
  newOpens : FetchResult
  newCloses : FetchResult
  newLiqs : FetchResult
  allOpens : List Nat
  allCloses : List Nat
  allLiqs : List Nat

/-- The `try` block of `update_positions` after the `self.open_positions[i][0]`
probe: append each new opened id, then remove each new closed id, then remove
each new liquidated id. Any raise yields `Except.error` with the state the
list had at that moment (transaction_manager.py lines 82-91). -/
def incrementalBody (l : List Nat) (fd : FilterData) : Except (List Nat) (List Nat) :=
  match fd.newOpens with
  | FetchResult.err => Except.error l
  | FetchResult.ok os =>
    let l1 := l ++ os
    match fd.newCloses with
    | FetchResult.err => Except.error l1
    | FetchResult.ok cs =>
      match removeAll l1 cs with
      | Except.error s => Except.error s
      | Except.ok l2 =>
        match fd.newLiqs with
        | FetchResult.err => Except.error l2
        | FetchResult.ok ls => removeAll l2 ls

/-- The `except` block of `update_positions`: append every historical opened
id to the current list (the list is not cleared first), then remove the
historical closed and liquidated ids (transaction_manager.py lines 92-102).
An error here propagates out of `update_positions`. -/
def fullScan (l : List Nat) (fd : FilterData) : Except (List Nat) (List Nat) :=
  match removeAll (l ++ fd.allOpens) fd.allCloses with
  | Except.error s => Except.error s
  | Except.ok l2 => removeAll l2 fd.allLiqs

/-- One iteration (one strategy) of `TransactionManager.update_positions`
(transaction_manager.py lines 77-102): the `try` block first probes
`self.open_positions[i][0]` (raising `IndexError` on an empty list), then runs
the incremental scan; any exception falls into the bare `except`, which runs
the full-history scan on whatever state the list has at that point. -/
def update_positions (l : List Nat) (fd : FilterData) : Except (List Nat) (List Nat) :=
  match listIndex l 0 with
  | Except.error _ => fullScan l fd
  | Except.ok _ =>
    match incrementalBody l fd with
    | Except.ok l2 => Except.ok l2
    | Except.error s => fullScan s fd

/-- Strategy name used when formatting an outcome message
(transaction_manager.py lines 127-129). -/
def strategyName (i : Nat) : String :=
  if i = 0 then "MarginTradingStrategy" else "YearnStrategy"

/-- The message appended to `liquidated_positions` on a successful
liquidation (transaction_manager.py lines 130-132). -/
def outcomeMessage (i : Nat) (id : Nat) : String :=
  "Position #" ++ toString id ++ " of " ++ strategyName i ++ " was liquidated"

/-- Observable result of one strategy loop of `check_liquidability`:
the messages accumulated, the ids for which `sign_and_send` was invoked
(score strictly positive), the ids whose contract reads were attempted, and
whether an uncaught exception escaped the loop. -/
structure ScanState where
  messages : List String
  flagged : List Nat
  evaluated : List Nat
  raised : Bool
  deriving DecidableEq

/-- One strategy loop of `TransactionManager.check_liquidability`
(transaction_manager.py lines 104-133). `rs id` models the composed contract
reads `positions(id).call()` followed by `computeLiquidationScore(...).call()[0]`,
either of which can raise; `sub id` models the boolean result of
`sign_and_send`. There is no `try/except` in the source loop, so a raised
read aborts the remaining iterations (`raised := true`, nothing after the
failing id is evaluated). -/
def check_liquidability (i : Nat) (rs : Nat → Except Unit Int) (sub : Nat → Bool) :
    List Nat → ScanState
  | [] => ⟨[], [], [], false⟩
  | x :: rest =>
    match rs x with
    | Except.error _ => ⟨[], [], [x], true⟩
    | Except.ok s =>
      let t := check_liquidability i rs sub rest
      if 0 < s then
        if sub x then
          ⟨outcomeMessage i x :: t.messages, x :: t.flagged, x :: t.evaluated, t.raised⟩
        else ⟨t.messages, x :: t.flagged, x :: t.evaluated, t.raised⟩
      else ⟨t.messages, t.flagged, x :: t.evaluated, t.raised⟩

/-- Remote calls issued by `sign_and_send`, in order of appearance in the
source (transaction_manager.py lines 135-162). -/
inductive RpcCall where
  | getBalance
  | getTransactionCount
  | generateGasPrice
  | estimateGas
  | sendRawTransaction
  | waitReceipt
  deriving DecidableEq

/-- The fields of the dict passed to `txn.buildTransaction`
(transaction_manager.py lines 143-149); the `from` address is constant. -/
structure TxnDict where
  nonce : Nat
  gasPrice : Nat
  deriving DecidableEq

/-- Environment of one `sign_and_send` attempt: what the remote calls return
and which stages raise. -/
structure SendEnv where
  balance : Int
  nonce : Nat
  gasPrice : Nat
  buildRaises : Bool
  estimateRaises : Bool
  signRaises : Bool
  sendRaises : Bool
  receiptRaises : Bool
  balanceAfter : Int

/-- Observable outcome of `sign_and_send`: the returned boolean, the remote
calls made, the built and the signed transaction dict (when those stages were
reached), and the post-state of the `self.eth_balance` field. -/
structure SendOutcome where
  success : Bool
  calls : List RpcCall
  built : Option TxnDict
  signed : Option TxnDict
  eth_balance : ℚ

/-- `Web3.fromWei(w, "ether")`: wei to ether. -/
def fromWei (w : Int) : ℚ := (w : ℚ) / 10 ^ 18

/-- `TransactionManager.sign_and_send` (transaction_manager.py lines 135-168).
The whole body is wrapped in `try/except Exception`, so every raise is caught
and the function returns `False` with `self.eth_balance` untouched. In order:
a `getBalance` for logging, `assert getBalance(...) > 0`, the nonce fetch, the
gas price fetch (`generate_gas_price() * 2` in the build dict), the build, the
`estimateGas` logging call, local signing, the raw send, the blocking receipt
wait, and finally the balance refresh stored into `self.eth_balance`. -/
def sign_and_send (eth0 : ℚ) (env : SendEnv) : SendOutcome :=
  let calls0 := [RpcCall.getBalance, RpcCall.getBalance]
  if env.balance ≤ 0 then
    ⟨false, calls0, none, none, eth0⟩
  else
    let calls1 := calls0 ++ [RpcCall.getTransactionCount, RpcCall.generateGasPrice]
    let txn : TxnDict := ⟨env.nonce, env.gasPrice * 2⟩
    if env.buildRaises then ⟨false, calls1, none, none, eth0⟩
    else
      let calls2 := calls1 ++ [RpcCall.estimateGas]
      if env.estimateRaises then ⟨false, calls2, some txn, none, eth0⟩
      else if env.signRaises then ⟨false, calls2, some txn, none, eth0⟩
      else
        let calls3 := calls2 ++ [RpcCall.sendRawTransaction]
        if env.sendRaises then ⟨false, calls3, some txn, some txn, eth0⟩
        else
          let calls4 := calls3 ++ [RpcCall.waitReceipt]
          if env.receiptRaises then ⟨false, calls4, some txn, some txn, eth0⟩
          else
            ⟨true, calls4 ++ [RpcCall.getBalance], some txn, some txn,
              fromWei env.balanceAfter⟩

/-- All stages of the `sign_and_send` lifecycle succeed: positive balance and
no raise at build, gas estimation, signing, broadcast or receipt wait. -/
def allStagesOk (env : SendEnv) : Prop :=
  0 < env.balance ∧ env.buildRaises = false ∧ env.estimateRaises = false ∧
    env.signRaises = false ∧ env.sendRaises = false ∧ env.receiptRaises = false

/-- Result of one iteration of the `while True` loop in
`_run_liquidation_bot` (main.py lines 146-153): either the list of outcome
messages of a completed cycle, or an exception escaping the cycle. -/
inductive CycleResult where
  | ok (msgs : List String)
  | raised
  deriving DecidableEq

/-- Messages a completed cycle sends to the notification channel. -/
def CycleResult.cycleMsgs : CycleResult → List String
  | CycleResult.ok m => m
  | CycleResult.raised => []

/-- `run_liquidation_bot` (main.py lines 156-162) observed over a finite trace
of cycle results: a completed cycle sends its messages and the loop goes on;
the first escaping exception reaches the bare `except`, which sends
"Bot offline" and raises `GracefulExit`, terminating the engine (the boolean
records termination; later cycle results are never processed). -/
def run_liquidation_bot : List CycleResult → List String × Bool
  | [] => ([], false)
  | CycleResult.ok msgs :: rest =>
    let r := run_liquidation_bot rest
    (msgs ++ r.1, r.2)
  | CycleResult.raised :: _ => (["Bot offline"], true)

/-- Parameter names of `TransactionManager.__init__`
(transaction_manager.py lines 13-21); all are required, none has a default. -/
def transactionManagerParams : List String :=
  ["private_key", "strategies_addresses", "strategies_abi",
   "liquidator_address", "liquidator_abi", "web3_handle"]

/-- Keyword arguments passed by `_setup_transaction_manager`
(main.py lines 108-114); these names do not depend on the configuration. -/
def setupTransactionManagerKwargs : List String :=
  ["private_key", "strategies_addresses", "strategies_abi",
   "liquidator", "web3_handle"]

/-- Python keyword-only call binding for a signature with only required
parameters: the call succeeds iff every keyword names a parameter and every
parameter is bound; otherwise Python raises `TypeError`. -/
def kwargsCallOk (params kwargs : List String) : Bool :=
  kwargs.all (fun k => params.contains k) && params.all (fun p => kwargs.contains p)

/-- Result of `_setup_transaction_manager`: either a constructed manager or a
`TypeError` raised at the `TransactionManager(...)` call. -/
inductive SetupResult where
  | typeError
  | manager
  deriving DecidableEq

/-- `_setup_transaction_manager` reduced to its final call
(main.py lines 108-114): the construction succeeds iff the keyword arguments
bind against the `__init__` signature. -/
def setup_transaction_manager : SetupResult :=
  if kwargsCallOk transactionManagerParams setupTransactionManagerKwargs then
    SetupResult.manager
  else SetupResult.typeError

/-- Filter data for the C1 scenario with history open(1), close(1): the
incremental fetch raises (cursor invalidated). -/
def fdC1a : FilterData := ⟨FetchResult.err, FetchResult.err, FetchResult.err, [1], [1], []⟩

/-- Filter data for the C1 duplication scenario: history open(1) and nothing
closed; the incremental close fetch raises after the open fetch returned. -/
def fdC1b : FilterData := ⟨FetchResult.ok [], FetchResult.err, FetchResult.err, [1], [], []⟩

/-- Filter data for the C2 scenario: a close event for id 2 while only id 1 is
tracked; history open(1), close(2). -/
def fdC2 : FilterData := ⟨FetchResult.ok [], FetchResult.ok [2], FetchResult.ok [], [1], [2], []⟩

/-- Score reads that always succeed with score 5. -/
def rsAllFive : Nat → Except Unit Int := fun _ => Except.ok 5

/-- Score reads where the read for id 1 raises and every other id scores 5. -/
def rsFailAtOne : Nat → Except Unit Int :=
  fun n => if n = 1 then Except.error () else Except.ok 5

/-- Score reads for the C7 scenario: id 3 scores 5, every other id scores 0. -/
def rsScenario : Nat → Except Unit Int :=
  fun n => if n = 3 then Except.ok 5 else Except.ok 0

/-- A submitter whose `sign_and_send` always reports success. -/
def subAlways : Nat → Bool := fun _ => true

/-- A submission environment with a zero account balance. -/
def envZero : SendEnv := ⟨0, 7, 5, false, false, false, false, false, 0⟩

/-- A submission environment where every stage succeeds. -/
def envOk : SendEnv := ⟨5, 7, 9, false, false, false, false, false, 3⟩

/-- Python `l.remove(x)` raises `ValueError` when `x` is not in the list. -/
theorem pyRemove_eq_none {l : List Nat} {x : Nat} (hx : x ∉ l) : pyRemove l x = none := by
  induction l with
  | nil => rfl
  | cons a as ih =>
    simp only [List.mem_cons, not_or] at hx
    have hax : ¬a = x := fun hax => hx.1 hax.symm
    simp [pyRemove, hax, ih hx.2]

/-- The ids whose reads were attempted form a front segment of the open list. -/
theorem check_evaluated_front (i : Nat) (rs : Nat → Except Unit Int) (sub : Nat → Bool) :
    ∀ ids : List Nat, ∃ suf, ids = (check_liquidability i rs sub ids).evaluated ++ suf := by
  intro ids
  induction ids with
  | nil => exact ⟨[], rfl⟩
  | cons x rest ih =>
    cases h : rs x with
    | error e => exact ⟨rest, by simp [check_liquidability, h]⟩
    | ok s =>
      obtain ⟨suf, hsuf⟩ := ih
      by_cases hs : 0 < s
      · by_cases hb : sub x = true
        · exact ⟨suf, by simp [check_liquidability, h, hs, hb]; exact hsuf⟩
        · exact ⟨suf, by simp [check_liquidability, h, hs, hb]; exact hsuf⟩
      · exact ⟨suf, by simp [check_liquidability, h, hs]; exact hsuf⟩

/-- Every id handed to the submitter is an open id whose read succeeded with a
strictly positive score. -/
theorem check_flagged_sound (i : Nat) (rs : Nat → Except Unit Int) (sub : Nat → Bool) :
    ∀ ids : List Nat, ∀ x ∈ (check_liquidability i rs sub ids).flagged,
      x ∈ ids ∧ ∃ s, rs x = Except.ok s ∧ 0 < s := by
  intro ids
  induction ids with
  | nil => intro x hx; simp [check_liquidability] at hx
  | cons y rest ih =>
    intro x hx
    cases h : rs y with
    | error e => simp [check_liquidability, h] at hx
    | ok s =>
      by_cases hs : 0 < s
      · by_cases hb : sub y = true
        · simp only [check_liquidability, h, if_pos hs, if_pos hb] at hx
          rcases List.mem_cons.mp hx with hxy | hxt
          · exact ⟨by simp [hxy], s, by rw [hxy]; exact h, hs⟩
          · obtain ⟨hm, hrest⟩ := ih x hxt
            exact ⟨List.mem_cons_of_mem _ hm, hrest⟩
        · simp only [check_liquidability, h, if_pos hs, if_neg hb] at hx
          rcases List.mem_cons.mp hx with hxy | hxt
          · exact ⟨by simp [hxy], s, by rw [hxy]; exact h, hs⟩
          · obtain ⟨hm, hrest⟩ := ih x hxt
            exact ⟨List.mem_cons_of_mem _ hm, hrest⟩
      · simp only [check_liquidability, h, if_neg hs] at hx
        obtain ⟨hm, hrest⟩ := ih x hx
        exact ⟨List.mem_cons_of_mem _ hm, hrest⟩

/-- When no read raised, every open id was evaluated. -/
theorem check_no_raise_eval (i : Nat) (rs : Nat → Except Unit Int) (sub : Nat → Bool) :
    ∀ ids : List Nat, (check_liquidability i rs sub ids).raised = false →
      (check_liquidability i rs sub ids).evaluated = ids := by
  intro ids
  induction ids with
  | nil => intro _; rfl
  | cons y rest ih =>
    intro hr
    cases h : rs y with
    | error e => simp [check_liquidability, h] at hr
    | ok s =>
      by_cases hs : 0 < s
      · by_cases hb : sub y = true
        · simp only [check_liquidability, h, if_pos hs, if_pos hb] at hr ⊢
          rw [ih hr]
        · simp only [check_liquidability, h, if_pos hs, if_neg hb] at hr ⊢
          rw [ih hr]
      · simp only [check_liquidability, h, if_neg hs] at hr ⊢
        rw [ih hr]

/-- When the loop raised, some open id has a raising read. -/
theorem check_raise_found (i : Nat) (rs : Nat → Except Unit Int) (sub : Nat → Bool) :
    ∀ ids : List Nat, (check_liquidability i rs sub ids).raised = true →
      ∃ x ∈ ids, rs x = Except.error () := by
  intro ids
  induction ids with
  | nil => intro hr; simp [check_liquidability] at hr
  | cons y rest ih =>
    intro hr
    cases h : rs y with
    | error e => exact ⟨y, by simp, by cases e; exact h⟩
    | ok s =>
      have hr2 : (check_liquidability i rs sub rest).raised = true := by
        by_cases hs : 0 < s
        · by_cases hb : sub y = true
          · simpa only [check_liquidability, h, if_pos hs, if_pos hb] using hr
          · simpa only [check_liquidability, h, if_pos hs, if_neg hb] using hr
        · simpa only [check_liquidability, h, if_neg hs] using hr
      obtain ⟨x, hm, hx⟩ := ih hr2
      exact ⟨x, List.mem_cons_of_mem _ hm, hx⟩

/-- Claim C1: the spec requires the exception-triggered fallback full re-scan
to recompute the tracked open set from scratch, equal to the opened ids minus
the closed or liquidated ids, with no id appearing more than once. The code
violates this: the except branch of `update_positions` appends the whole
historical open list to the still-populated tracked list without clearing it.
With id 1 tracked and the incremental fetch raising, a history open(1),
close(1) leaves id 1 tracked (instead of the empty set), and a history
open(1) with nothing closed leaves id 1 tracked twice. -/
theorem update_positions_fallback_bug :
    update_positions [1] fdC1a = Except.ok [1] ∧
    update_positions [1] fdC1b = Except.ok [1, 1] :=
  ⟨rfl, rfl⟩

/-- Claim C2 (amended): processing a closed or liquidated event whose id is
not currently tracked is not a no-op. The underlying `list.remove` raises
`ValueError`; in the incremental path the bare except catches it and runs the
full-history fallback (which mutates the collection), and in the fallback path
the exception propagates out of `update_positions`. -/
theorem update_positions_untracked_remove (l : List Nat) (x : Nat) (hx : x ∉ l)
    (fd : FilterData) (hne : l ≠ []) (ho : fd.newOpens = FetchResult.ok [])
    (hc : fd.newCloses = FetchResult.ok [x]) :
    removeAll l [x] = Except.error l ∧
    incrementalBody l fd = Except.error l ∧
    update_positions l fd = fullScan l fd := by
  have hrem : pyRemove l x = none := pyRemove_eq_none hx
  have h1 : removeAll l [x] = Except.error l := by
    simp [removeAll, hrem]
  have h2 : incrementalBody l fd = Except.error l := by
    simp [incrementalBody, ho, hc, h1]
  refine ⟨h1, h2, ?_⟩
  obtain ⟨y, ys, rfl⟩ := List.exists_cons_of_ne_nil hne
  simp [update_positions, listIndex, h2]

/-- Witness for claim C2 at the concrete input of the counterexample. -/
theorem update_positions_untracked_remove_witness :
    removeAll [1] [2] = Except.error [1] ∧
    incrementalBody [1] fdC2 = Except.error [1] ∧
    update_positions [1] fdC2 = fullScan [1] fdC2 :=
  update_positions_untracked_remove [1] 2 (by decide) fdC2 (by decide) rfl rfl

/-- Counterexample to claim C2 as stated: with only id 1 tracked, a close
event for the untracked id 2 makes `update_positions` raise (the `ValueError`
from the fallback path escapes) and leaves the collection changed to [1, 1]
rather than untouched. -/
theorem update_positions_untracked_remove_cex :
    update_positions [1] fdC2 = Except.error [1, 1] ∧ (2 : Nat) ∉ ([1] : List Nat) :=
  ⟨rfl, by decide⟩

/-- Claim C3 (amended): `check_liquidability` only evaluates and flags ids
drawn from the current open collection (the evaluated ids are a front segment
of the open list and every flagged id is an open id whose read returned a
strictly positive score), and when no read raises every open id is evaluated;
but a raising contract read is not caught: the exception aborts the loop, so
the ids after the failing one are not evaluated in that cycle. -/
theorem check_liquidability_scope (i : Nat) (rs : Nat → Except Unit Int)
    (sub : Nat → Bool) (ids : List Nat) :
    (∃ suf, ids = (check_liquidability i rs sub ids).evaluated ++ suf) ∧
    (∀ x ∈ (check_liquidability i rs sub ids).flagged,
        x ∈ ids ∧ ∃ s, rs x = Except.ok s ∧ 0 < s) ∧
    ((check_liquidability i rs sub ids).raised = false →
        (check_liquidability i rs sub ids).evaluated = ids) ∧
    ((check_liquidability i rs sub ids).raised = true →
        ∃ x ∈ ids, rs x = Except.error ()) :=
  ⟨check_evaluated_front i rs sub ids, check_flagged_sound i rs sub ids,
   check_no_raise_eval i rs sub ids, check_raise_found i rs sub ids⟩

/-- Witness for claim C3 at a concrete input with no raising read. -/
theorem check_liquidability_scope_witness :
    (∃ suf, ([1, 2] : List Nat) =
        (check_liquidability 0 rsAllFive subAlways [1, 2]).evaluated ++ suf) ∧
    (check_liquidability 0 rsAllFive subAlways [1, 2]).evaluated = [1, 2] := by
  have h := check_liquidability_scope 0 rsAllFive subAlways [1, 2]
  exact ⟨h.1, h.2.2.1 rfl⟩

/-- Counterexample to claim C3 as stated: when the read for id 1 raises, id 2
of the same cycle is never evaluated, because the loop has no handler. -/
theorem check_liquidability_abort_cex :
    (check_liquidability 0 rsFailAtOne subAlways [1, 2]).evaluated = [1] ∧
    (check_liquidability 0 rsFailAtOne subAlways [1, 2]).raised = true ∧
    (2 : Nat) ∉ (check_liquidability 0 rsFailAtOne subAlways [1, 2]).evaluated :=
  ⟨rfl, rfl, by decide⟩

/-- Claim C4: when the account balance is zero, `sign_and_send` fails the
assert, returns false, never calls the gas-price or gas-estimation functions
(nor the nonce fetch), and leaves the eth_balance snapshot unchanged. -/
theorem sign_and_send_zero_balance (eth0 : ℚ) (env : SendEnv)
    (h : env.balance = 0) :
    (sign_and_send eth0 env).success = false ∧
    RpcCall.generateGasPrice ∉ (sign_and_send eth0 env).calls ∧
    RpcCall.estimateGas ∉ (sign_and_send eth0 env).calls ∧
    RpcCall.getTransactionCount ∉ (sign_and_send eth0 env).calls ∧
    (sign_and_send eth0 env).eth_balance = eth0 := by
  have hle : env.balance ≤ 0 := le_of_eq h
  simp [sign_and_send, hle]

/-- Witness for claim C4 at a concrete zero-balance environment. -/
theorem sign_and_send_zero_balance_witness :
    (sign_and_send 0 envZero).success = false ∧
    RpcCall.generateGasPrice ∉ (sign_and_send 0 envZero).calls ∧
    RpcCall.estimateGas ∉ (sign_and_send 0 envZero).calls ∧
    RpcCall.getTransactionCount ∉ (sign_and_send 0 envZero).calls ∧
    (sign_and_send 0 envZero).eth_balance = 0 :=
  sign_and_send_zero_balance 0 envZero rfl

/-- Claim C5: whenever a transaction dict is built or signed by
`sign_and_send`, its gas price is exactly twice the fetched gas price and its
nonce is the nonce fetched during the same attempt. -/
theorem sign_and_send_pricing (eth0 : ℚ) (env : SendEnv) (t : TxnDict)
    (h : (sign_and_send eth0 env).built = some t ∨
         (sign_and_send eth0 env).signed = some t) :
    t.gasPrice = env.gasPrice * 2 ∧ t.nonce = env.nonce := by
  simp only [sign_and_send] at h
  split_ifs at h <;> rcases h with h | h <;>
    first
      | exact h.elim
      | exact Option.noConfusion h
      | (rw [Option.some_inj] at h; subst h; exact ⟨rfl, rfl⟩)

/-- Witness for claim C5 at a concrete all-stages-succeed environment. -/
theorem sign_and_send_pricing_witness :
    (⟨7, 18⟩ : TxnDict).gasPrice = envOk.gasPrice * 2 ∧
    (⟨7, 18⟩ : TxnDict).nonce = envOk.nonce :=
  sign_and_send_pricing 0 envOk ⟨7, 18⟩ (Or.inl (by decide))

/-- Claim C6: `sign_and_send` catches every stage failure and returns false
with the eth_balance snapshot untouched; it returns true exactly when every
lifecycle stage succeeded, and then the snapshot is refreshed to the
post-transaction balance. -/
theorem sign_and_send_total (eth0 : ℚ) (env : SendEnv) :
    ((sign_and_send eth0 env).success = true ↔ allStagesOk env) ∧
    ((sign_and_send eth0 env).success = true →
        (sign_and_send eth0 env).eth_balance = fromWei env.balanceAfter) ∧
    ((sign_and_send eth0 env).success = false →
        (sign_and_send eth0 env).eth_balance = eth0) := by
  simp only [sign_and_send, allStagesOk]
  split_ifs with h1 h2 h3 h4 h5 h6 <;> simp_all

/-- Witness for claim C6 at a concrete all-stages-succeed environment. -/
theorem sign_and_send_total_witness :
    (sign_and_send 0 envOk).success = true ∧
    (sign_and_send 0 envOk).eth_balance = fromWei envOk.balanceAfter := by
  have h := sign_and_send_total 0 envOk
  have hs := h.1.mpr ⟨by decide, rfl, rfl, rfl, rfl, rfl⟩
  exact ⟨hs, h.2.1 hs⟩

/-- Claim C7: with open set [1, 3] and scores 1 maps to 0 and 3 maps to 5,
the submitter is invoked only for position 3, and on success the cycle output
is exactly one message referencing Position #3 and the strategy name. -/
theorem check_liquidability_scenario :
    check_liquidability 0 rsScenario subAlways [1, 3] =
      ⟨["Position #3 of " ++ strategyName 0 ++ " was liquidated"],
        [3], [1, 3], false⟩ := by
  decide

/-- Claim C8: an exception escaping a polling cycle reaches the bare except of
`run_liquidation_bot`, which sends the Bot offline message after the messages
of the completed cycles and terminates the engine; the cycle results after the
raise are never processed. -/
theorem run_liquidation_bot_fatal (pre rest : List CycleResult)
    (h : CycleResult.raised ∉ pre) :
    run_liquidation_bot (pre ++ CycleResult.raised :: rest) =
      ((pre.map CycleResult.cycleMsgs).flatten ++ ["Bot offline"], true) := by
  induction pre with
  | nil => simp [run_liquidation_bot]
  | cons c pre ih =>
    cases c with
    | raised => exact absurd (List.mem_cons_self _ _) h
    | ok m =>
      have h2 : CycleResult.raised ∉ pre := fun hm => h (List.mem_cons_of_mem _ hm)
      simp [run_liquidation_bot, ih h2, CycleResult.cycleMsgs]

/-- Witness for claim C8 at a concrete trace: one good cycle, then a raise,
then a cycle that is never reached. -/
theorem run_liquidation_bot_fatal_witness :
    run_liquidation_bot
        [CycleResult.ok ["m1"], CycleResult.raised, CycleResult.ok ["m2"]] =
      (["m1", "Bot offline"], true) := by
  have h := run_liquidation_bot_fatal [CycleResult.ok ["m1"]] [CycleResult.ok ["m2"]]
    (by decide)
  simpa [CycleResult.cycleMsgs] using h

/-- Claim C9: the constructor call in `_setup_transaction_manager` passes the
keyword liquidator, which is not a parameter of the `TransactionManager`
initializer, and omits the required liquidator_address and liquidator_abi
parameters, so the call raises `TypeError` for every configuration and engine
startup can never complete. -/
theorem setup_transaction_manager_type_error :
    setup_transaction_manager = SetupResult.typeError ∧
    "liquidator" ∈ setupTransactionManagerKwargs ∧
    "liquidator" ∉ transactionManagerParams ∧
    "liquidator_address" ∈ transactionManagerParams ∧
    "liquidator_address" ∉ setupTransactionManagerKwargs ∧
    "liquidator_abi" ∈ transactionManagerParams ∧
    "liquidator_abi" ∉ setupTransactionManagerKwargs := by
  decide

/-- Claim C10: with an empty tracked list the probe of element 0 raises
`IndexError`, so the strategy is processed by the full-history fallback; with
at least one tracked id the probe succeeds and the incremental body runs. -/
theorem update_positions_empty_probe :
    (∀ fd : FilterData,
        listIndex ([] : List Nat) 0 = Except.error () ∧
        update_positions [] fd = fullScan [] fd) ∧
    (∀ (x : Nat) (xs : List Nat) (fd : FilterData),
        listIndex (x :: xs) 0 = Except.ok x ∧
        update_positions (x :: xs) fd =
          (match incrementalBody (x :: xs) fd with
           | Except.ok l2 => Except.ok l2
           | Except.error s => fullScan s fd)) :=
  ⟨fun _ => ⟨rfl, rfl⟩, fun _ _ _ => ⟨rfl, rfl⟩⟩

end LiquidationBot
